import Mathlib

/-
Shallow embedding of the CAN communication library in
src/can_communication.py (classes CANMessage, BoardData, BootloaderProtocol,
RetainVarMonitor).

Conventions used to translate Python integer operations exactly:
  - Python ints are modelled as Lean `Int` (or `Nat` where the source value is
    provably non-negative, e.g. table addresses and CAN identifiers).
  - Python `x & 0xFF` on an arbitrary int is `Int.land x 255` (two's
    complement, identical to Python); on a `Nat` it is `x &&& 255`.
  - Python `x << k` / `x >> k` are `<<<` / `>>>` (arithmetic shifts, identical
    to Python semantics for negative values as well).
  - Python `x % k` (k > 0) is `Int.emod` (both return a value in [0, k)).
  - Python `|` on list-of-byte values is `Int.lor`.
  - The transport (python-can bus) is replaced by explicit outcome parameters:
    the result a `send` returns, and the `(result, message)` pair a `receive`
    returns.  Frames handed to the transport are collected in traces so that
    theorems can talk about what was (or was not) sent.
-/

/-- CAN operation results (class CANResult in the source). -/
inductive CANResult where
  | errOK
  | errXMTFULL
  | errOVERRUN
  | errBUSLIGHT
  | errBUSHEAVY
  | errBUSOFF
  | errQRCVEMPTY
  | errQOVERRUN
  | errQXMTFULL
  | errREGTEST
  | errNOVXD
  | errILLHW
  | errRESOURCE
  | errPARMTYP
  | errPARMVAL
  | errNODLL
deriving DecidableEq, Repr

/-- CAN message types (class MessageType in the source). -/
inductive MessageType where
  | standard
  | rtr
  | extended
  | status
deriving DecidableEq, Repr

/-- CAN message structure (dataclass CANMessage). `length` is the field set by
`__post_init__` to `len(data)`. -/
structure CANMessage where
  id : Nat
  data : List Int
  msgtype : MessageType := .standard
  length : Nat := 8
deriving DecidableEq, Repr

/-- Constructing a CANMessage runs `__post_init__`: it raises ValueError
(modelled as `none`) when the payload exceeds 8 bytes, and otherwise sets the
`length` field to the number of data bytes. -/
def mkCANMessage (id : Nat) (data : List Int) (msgtype : MessageType) :
    Option CANMessage :=
  if data.length > 8 then none
  else some { id := id, data := data, msgtype := msgtype, length := data.length }

/-- One interaction with the bus transport, as performed by the protocol
engines: handing a frame to `send_message`, or calling `receive_message`. -/
inductive BusAction where
  | send (m : CANMessage)
  | receive
deriving DecidableEq, Repr

/-! Board catalog: the per-board address tables and variable-name lists of
class BoardData, copied verbatim from the `_init_*_data` methods. -/

def pcu_table_addr : List Nat := [
  0, 2, 6, 10, 14, 18, 19, 20, 21, 22,
  23, 27, 31, 35, 37, 39, 41, 43, 45, 47,
  51, 52, 53, 54, 55, 56, 57, 58, 60, 62,
  64, 66, 68, 70, 72, 74, 76, 77, 78, 79,
  80, 81, 82, 83, 84, 85, 87, 91, 95, 99, 103
]

def pcu_variable_names : List String := [
  "Flash CRC16", "Flash counter", "Supervisor key", "Admin key", "User key",
  "Manuf. rev.", "Model", "Type", "Software rev.", "Hardware rev.",
  "Date manuf.", "Date service", "Date current", "Log number", "Log index",
  "Event number", "Event index", "Failure number", "Failure index", "Com ID",
  "Com index", "Com type", "Setup", "Option", "Verbose",
  "Debug", "Param", "Top speed FW", "Top speed RV", "Min speed FW",
  "Min speed RV", "Dock speed FW", "Dock speed RV", "Max torque FW", "Max torque RV",
  "Mtn max torque", "Eco/Sport ratio", "Filter RPM step", "Filter rpm step", "Filter TRQ step",
  "Filter trq step", "Reverse dir.", "Forward dir.", "Motor low temp", "Motor cool LPM",
  "F/R speed max", "Ramp FW acc.", "Ramp RV acc.", "Ramp FW dec.", "Ramp RV dec.", "Batt low temp"
]

def tcu_table_addr : List Nat := [
  0, 2, 6, 10, 14, 18, 19, 20, 21, 22,
  23, 27, 31, 35, 37, 39, 41, 43, 45, 47,
  51, 52, 53, 54, 55, 56, 57, 58, 60, 62,
  64, 66, 68, 70, 71, 73, 74, 76, 78, 80,
  82, 83, 84, 85, 86, 87, 88, 89, 90, 91, 92
]

def tcu_variable_names : List String := [
  "Flash CRC16", "Flash counter", "Supervisor key", "Admin key", "User key",
  "Manuf. rev.", "Model", "Type", "Software rev.", "Hardware rev.",
  "Date manuf.", "Date service", "Date current", "Log number", "Log index",
  "Event number", "Event index", "Failure number", "Failure index", "Com ID",
  "Com index", "Com type", "Mode init", "Mode option", "Mode verbose",
  "Mode debug", "Mode param", "Ana1 value min", "Ana1 value max", "Ana2 value min",
  "Ana2 value max", "Ana3 value min", "Ana3 value max", "Brake trigger", "Openwire limit",
  "POT3 volt. gap", "POT3 R value", "POT3 N value", "POT3 D value", "POT3 P value",
  "LOG dot 1", "LOG dot 2", "LOG dot 3", "LOG dot 4", "LOG dot 5",
  "LOG dot 6", "Reserved", "Reserved", "Reserved", "Reserved"
]

def bms_table_addr : List Nat := [
  0, 2, 6, 10, 14, 18, 19, 20, 21, 22,
  23, 27, 31, 35, 37, 39, 41, 43, 45, 47,
  51, 52, 53, 54, 55, 56, 57, 58, 60, 62,
  64, 66, 68, 70, 72, 74, 76, 77, 78, 79,
  80, 81, 82, 83, 84, 85, 87, 91, 95, 99, 103
]

def bms_variable_names : List String := [
  "Flash CRC16", "Flash counter", "Supervisor key", "Admin key", "User key",
  "Manuf. rev.", "Model", "Type", "Software rev.", "Hardware rev.",
  "Date manuf.", "Date service", "Date current", "Log number", "Log index",
  "Event number", "Event index", "Failure number", "Failure index", "Com ID",
  "Com index", "Com type", "Mode init", "Mode option", "Mode verbose",
  "Mode debug", "Mode param", "Abs. max speed F", "Abs. max speed R", "Lim. max speed F",
  "Lim. max speed R", "Mtn. max speed F", "Mtn. max pseed R", "Max torque FW", "Max torque RV",
  "Mtn max torque", "Eco/Sport ratio", "Filter RPM step", "Filter rpm step", "Filter TRQ step",
  "Filter trq step", "Reverse dir.", "Forward dir.", "Speed mode val.", "Torq mode val.",
  "F/R speed max", "HVBATT addr", "DISCHG filter", "CHG filter", "VCU addr"
]

def scu_table_addr : List Nat := [
  0, 2, 6, 10, 14, 18, 19, 20, 21, 22,
  23, 27, 31, 35, 37, 39, 41, 43, 45, 47,
  51, 52, 53, 54, 55, 56, 57, 58, 59, 60,
  61, 62, 63, 64, 65, 66, 67, 68, 69, 70,
  71, 72, 73, 74, 75, 76, 77, 78, 79, 80, 81
]

def scu_variable_names : List String := [
  "Flash CRC16", "Flash counter", "Supervisor key", "Admin key", "User key",
  "Manuf. rev.", "Model", "Type", "Software rev.", "Hardware rev.",
  "Date manuf.", "Date service", "Date current", "Log number", "Log index",
  "Event number", "Event index", "Failure number", "Failure index", "Com ID",
  "Com index", "Com type", "Mode init", "Mode option", "Mode verbose",
  "Mode debug", "Mode param", "Temp max", "Temp min", "Frame rate",
  "Reserved", "Reserved", "Reserved", "Reserved", "Reserved",
  "Reserved", "Reserved", "Reserved", "Reserved", "Reserved",
  "Reserved", "Reserved", "Reserved", "Reserved", "Reserved",
  "Reserved", "Reserved", "Reserved", "Reserved", "Reserved"
]

def fcu_table_addr : List Nat := [
  0, 2, 6, 10, 14, 18, 19, 20, 21, 22,
  23, 27, 31, 35, 37, 39, 41, 43, 45, 47,
  51, 52, 53, 54, 55, 56, 57, 58, 59, 60,
  61, 62, 63, 64, 65, 66, 67, 68, 69, 70,
  71, 72, 73, 74, 75, 76, 77, 78, 79, 80, 81
]

def fcu_variable_names : List String := [
  "Flash CRC16", "Flash counter", "Supervisor key", "Admin key", "User key",
  "Manuf. rev.", "Model", "Type", "Software rev.", "Hardware rev.",
  "Date manuf.", "Date service", "Date current", "Log number", "Log index",
  "Event number", "Event index", "Failure number", "Failure index", "Com ID",
  "Com index", "Com type", "Mode init", "Mode option", "Mode verbose",
  "Mode debug", "Mode param", "Flow max", "Flow min", "Frame rate",
  "Reserved", "Reserved", "Reserved", "Reserved", "Reserved",
  "Reserved", "Reserved", "Reserved", "Reserved", "Reserved",
  "Reserved", "Reserved", "Reserved", "Reserved", "Reserved",
  "Reserved", "Reserved", "Reserved", "Reserved", "Reserved"
]

def wlu_table_addr : List Nat := [
  0, 2, 6, 10, 14, 18, 19, 20, 21, 22,
  23, 27, 31, 35, 37, 39, 41, 43, 45, 47,
  51, 52, 53, 54, 55, 56, 57, 58, 59, 60,
  61, 62, 66, 70, 72, 74, 76, 77, 78, 79,
  80, 81, 82, 83, 84, 85, 86, 87, 88, 89, 90
]

def wlu_variable_names : List String := [
  "Flash CRC16", "Flash counter", "Supervisor key", "Admin key", "User key",
  "Manuf. rev.", "Model", "Type", "Software rev.", "Hardware rev.",
  "Date manuf.", "Date service", "Date current", "Log number", "Log index",
  "Event number", "Event index", "Failure number", "Failure index", "Com ID",
  "Com index", "Com type", "Mode init", "Mode option", "Mode verbose",
  "Mode debug", "Mode param", "Temp max", "Current coeff", "Voltage min",
  "Current max", "Warning CANID", "Warning filter", "Warning value", "Warning ON time",
  "Warning OFF time", "Reserved", "Reserved", "Reserved", "Reserved",
  "Reserved", "Reserved", "Reserved", "Reserved", "Reserved",
  "Reserved", "Reserved", "Reserved", "Reserved", "Reserved"
]

def obd_dcdc_table_addr : List Nat := [
  0, 2, 6, 10, 14, 18, 19, 20, 21, 22,
  23, 27, 31, 35, 37, 39, 41, 43, 45, 47,
  51, 52, 53, 54, 55, 56, 57, 58, 60, 62,
  66, 70, 74, 75, 76, 77, 78, 79, 80, 81,
  82, 83, 84, 85, 86, 87, 88, 89, 90, 91, 92
]

def obd_dcdc_variable_names : List String := [
  "Flash CRC16", "Flash counter", "Supervisor key", "Admin key", "User key",
  "Manuf. rev.", "Model", "Type", "Software rev.", "Hardware rev.",
  "Date manuf.", "Date service", "Date current", "Log number", "Log index",
  "Event number", "Event index", "Failure number", "Failure index", "Com ID",
  "Com index", "Com type", "Mode init", "Mode option", "Mode verbose",
  "Mode debug", "Mode param", "DCDC voltage", "DCDC current", "HVBATT CAN id",
  "Discharge filter", "Charge filter", "Reserved", "Reserved", "Reserved",
  "Reserved", "Reserved", "Reserved", "Reserved", "Reserved",
  "Reserved", "Reserved", "Reserved", "Reserved", "Reserved",
  "Reserved", "Reserved", "Reserved", "Reserved", "Reserved"
]

def ccu_table_addr : List Nat := [
  0, 2, 6, 10, 14, 18, 19, 20, 21, 22,
  23, 27, 31, 35, 37, 39, 41, 43, 45, 47,
  51, 52, 53, 54, 55, 56, 57, 58, 59, 60,
  61, 62, 63, 64, 65, 66, 67, 68, 69, 70,
  71, 72, 73, 74, 75, 76, 77, 78, 79, 80, 81
]

def ccu_variable_names : List String := [
  "Flash CRC16", "Flash counter", "Supervisor key", "Admin key", "User key",
  "Manuf. rev.", "Model", "Type", "Software rev.", "Hardware rev.",
  "Date manuf.", "Date service", "Date current", "Log number", "Log index",
  "Event number", "Event index", "Failure number", "Failure index", "Com ID",
  "Com index", "Com type", "Mode init", "Mode option", "Mode verbose",
  "Mode debug", "Mode param", "Flow setpoint", "ZCU curr", "Service pump %",
  "ZCU rated curr", "ZCU timeout", "Reserved", "Reserved", "Reserved",
  "Reserved", "Reserved", "Reserved", "Reserved", "Reserved",
  "Reserved", "Reserved", "Reserved", "Reserved", "Reserved",
  "Reserved", "Reserved", "Reserved", "Reserved", "Reserved"
]

def gate_table_addr : List Nat := [
  0, 2, 6, 10, 14, 18, 19, 20, 21, 22,
  23, 27, 31, 35, 37, 39, 41, 43, 45, 47,
  51, 52, 53, 54, 55, 56, 57, 58, 62, 66,
  70, 74, 78, 82, 86, 90, 94, 98, 102, 106,
  110, 114, 118, 122, 123, 124, 125, 126, 127, 128, 129
]

def gate_variable_names : List String := [
  "Flash CRC16", "Flash counter", "Supervisor key", "Admin key", "User key",
  "Manuf. rev.", "Model", "Type", "Software rev.", "Hardware rev.",
  "Date manuf.", "Date service", "Date current", "Log number", "Log index",
  "Event number", "Event index", "Failure number", "Failure index", "Com ID",
  "Com index", "Com type", "Mode init", "Mode option", "Mode verbose",
  "Mode debug", "Mode param", "CAN2 src (ADDR1)", "CAN1 dst (ADDR1)", "CAN1 src (ADDR1)",
  "CAN2 dst (ADDR1)", "CAN2 src (ADDR2)", "CAN1 dst (ADDR2)", "CAN1 src (ADDR2)", "CAN2 dst (ADDR2)",
  "CAN2 src (ADDR3)", "CAN1 dst (ADDR3)", "CAN1 src (ADDR3)", "CAN2 dst (ADDR3)", "CAN2 src (ADDR4)",
  "CAN1 dst (ADDR4)", "CAN1 src (ADDR4)", "CAN2 dst (ADDR4)", "Reserved", "Reserved",
  "Reserved", "Reserved", "Reserved", "Reserved", "Reserved"
]

def pdu_table_addr : List Nat := [
  0, 2, 6, 10, 14, 18, 19, 20, 21, 22,
  23, 27, 31, 35, 37, 39, 41, 43, 45, 47,
  51, 52, 53, 54, 55, 56, 57, 58, 59, 60,
  61, 62, 63, 64, 65, 66, 67, 68, 69, 70,
  71, 72, 73, 74, 75, 76, 77, 78, 79, 80, 81
]

def pdu_variable_names : List String := [
  "Flash CRC16", "Flash counter", "Supervisor key", "Admin key", "User key",
  "Manuf. rev.", "Model", "Type", "Software rev.", "Hardware rev.",
  "Date manuf.", "Date service", "Date current", "Log number", "Log index",
  "Event number", "Event index", "Failure number", "Failure index", "Com ID",
  "Com index", "Com type", "Mode init", "Mode option", "Mode verbose",
  "Mode debug", "Mode param", "Motor2 enable", "Generator enable", "Precharge2 enable",
  "Leakage enable", "Batt delay", "Precharge1 delay", "Precharge2 delay", "Generator delay",
  "Reserved", "Reserved", "Reserved", "Reserved", "Reserved",
  "Reserved", "Reserved", "Reserved", "Reserved", "Reserved",
  "Reserved", "Reserved", "Reserved", "Reserved", "Reserved"
]

def zcu_table_addr : List Nat := [
  0, 2, 6, 10, 14, 18, 19, 20, 21, 22,
  23, 27, 31, 35, 37, 39, 41, 43, 45, 47,
  51, 52, 53, 54, 55, 56, 57, 58, 59, 60,
  62, 63, 65, 66, 67, 68, 70, 72, 74, 75,
  76, 77, 78, 79, 80, 81, 82, 83, 84, 85, 86
]

def zcu_variable_names : List String := [
  "Flash CRC16", "Flash counter", "Supervisor key", "Admin key", "User key",
  "Manuf. rev.", "Model", "Type", "Software rev.", "Hardware rev.",
  "Date manuf.", "Date service", "Date current", "Log number", "Log index",
  "Event number", "Event index", "Failure number", "Failure index", "Com ID",
  "Com index", "Com type", "Setup", "Option", "Verbose",
  "Debug", "Param", "Nom peak current", "Max peak current", "Peak timeout",
  "Max cont current", "Cont timeout", "Max MOS temp", "Min MOS temp", "Pump type",
  "Throttle max", "Tick to Min%", "Tick to Max%", "Min PWM to flow", "Derating PWM %",
  "Derating temp diff", "Derating delay", "Min flow derating", "CAN timeout", "Reserved",
  "Reserved", "Reserved", "Reserved", "Reserved", "Reserved"
]

def vcu_table_addr : List Nat := [
  0, 2, 6, 10, 14, 18, 19, 20, 21, 22,
  23, 27, 31, 35, 37, 39, 41, 43, 45, 47,
  51, 52, 53, 54, 55, 56, 57, 58, 59, 60,
  61, 63, 65, 67, 69, 71, 73, 74, 75, 76,
  77, 78, 79, 80, 81, 82, 83, 84, 85, 86, 87
]

def vcu_variable_names : List String := [
  "Flash CRC16", "Flash counter", "Supervisor key", "Admin key", "User key",
  "Manuf. rev.", "Model", "Type", "Software rev.", "Hardware rev.",
  "Date manuf.", "Date service", "Date current", "Log number", "Log index",
  "Event number", "Event index", "Failure number", "Failure index", "Com ID",
  "Com index", "Com type", "Setup", "Option", "Verbose",
  "Debug", "Param", "BAT low temp", "CHG high temp", "Free",
  "PDU config", "End of charge", "HV Bat max", "HV pack energy", "SHD threshold",
  "IGNoff timeout", "DCDC Setpoint", "Reserved", "Reserved", "Reserved",
  "Reserved", "Reserved", "Reserved", "Reserved", "Reserved", "Reserved",
  "Reserved", "Reserved", "Reserved", "Reserved", "Reserved"
]

/-- Board-specific data (class BoardData). `can_id_base` is the instance
attribute set to 0x300 in `__init__` (no `_init_*_data` method changes it). -/
structure BoardData where
  board_type : String
  table_addr : List Nat
  variable_names : List String
  can_id_base : Nat
deriving DecidableEq, Repr

/-- TABLE_ADDR_MAX in the source. -/
def TABLE_ADDR_MAX : Nat := 51

/-- Default CAN ID bases for each board type (dict BOARD_CAN_ID_BASES). -/
def board_can_id_bases : List (String × Nat) := [
  ("PCU", 0x300),
  ("TCU", 0x400),
  ("WLU", 0x500),
  ("OBD_DC_DC", 0x600),
  ("CCU", 0x380),
  ("GATE", 0x480),
  ("PDU", 0x580),
  ("ZCU", 0x680),
  ("VCU", 0x700),
  ("SCU", 0x780),
  ("FCU", 0x800),
  ("BMS", 0x880)
]

/-- BoardData.__init__: defaults (51 zero addresses, empty name list,
can_id_base 0x300), then the `_init_*_data` branch selected by the board type.
An unrecognized board type falls through every branch and keeps the defaults.
The constructor has no failure path. -/
def mkBoardData (board_type : String) : BoardData :=
  if board_type = "PCU" then
    ⟨board_type, pcu_table_addr, pcu_variable_names, 0x300⟩
  else if board_type = "TCU" then
    ⟨board_type, tcu_table_addr, tcu_variable_names, 0x300⟩
  else if board_type = "BMS" then
    ⟨board_type, bms_table_addr, bms_variable_names, 0x300⟩
  else if board_type = "SCU" then
    ⟨board_type, scu_table_addr, scu_variable_names, 0x300⟩
  else if board_type = "FCU" then
    ⟨board_type, fcu_table_addr, fcu_variable_names, 0x300⟩
  else if board_type = "WLU" then
    ⟨board_type, wlu_table_addr, wlu_variable_names, 0x300⟩
  else if board_type = "OBD_DC_DC" then
    ⟨board_type, obd_dcdc_table_addr, obd_dcdc_variable_names, 0x300⟩
  else if board_type = "CCU" then
    ⟨board_type, ccu_table_addr, ccu_variable_names, 0x300⟩
  else if board_type = "GATE" then
    ⟨board_type, gate_table_addr, gate_variable_names, 0x300⟩
  else if board_type = "PDU" then
    ⟨board_type, pdu_table_addr, pdu_variable_names, 0x300⟩
  else if board_type = "ZCU" then
    ⟨board_type, zcu_table_addr, zcu_variable_names, 0x300⟩
  else if board_type = "VCU" then
    ⟨board_type, vcu_table_addr, vcu_variable_names, 0x300⟩
  else
    ⟨board_type, List.replicate TABLE_ADDR_MAX 0, [], 0x300⟩

/-- The twelve recognized board classes (keys of BOARD_TYPES; the same set is
dispatched on in `BoardData.__init__`). -/
def known_board_types : List String :=
  ["PCU", "TCU", "WLU", "OBD_DC_DC", "CCU", "GATE",
   "PDU", "ZCU", "VCU", "SCU", "FCU", "BMS"]

/-- BoardData.get_variable_address: the table entry for an in-range index,
otherwise 0.  The source also guards `0 <= index`, which is automatic for a
`Nat` index. -/
def get_variable_address (b : BoardData) (index : Nat) : Nat :=
  if index < b.table_addr.length then b.table_addr.getD index 0 else 0

/-- BoardData.get_default_can_id_base: dict lookup with default 0x300. -/
def get_default_can_id_base (b : BoardData) : Nat :=
  ((board_can_id_bases.lookup b.board_type).getD 0x300)

/-- RetainVarMonitor.select_board: constructs the BoardData and reports
success; `BoardData.__init__` has no failure path, so the `except` branch
returning False is unreachable. -/
def select_board (board_type : String) : Option BoardData :=
  some (mkBoardData board_type)

/-! RetainVar protocol engine (RetainVarMonitor.read_variable and
RetainVarMonitor.write_variable). -/

/-- Transfer length computed by read_variable:
`min(4, table_addr[index+1] - address)` when `index + 1` is still inside the
address table, else 4 (default for the last variable).  The subtraction is on
Python ints, hence `Int`. -/
def read_length (b : BoardData) (var_index : Nat) : Int :=
  if var_index + 1 < b.table_addr.length then
    min 4 ((b.table_addr.getD (var_index + 1) 0 : Int) -
      (get_variable_address b var_index : Int))
  else 4

/-- Transfer length computed by write_variable (textually the same calculation
as in read_variable). -/
def write_length (b : BoardData) (var_index : Nat) : Int :=
  if var_index + 1 < b.table_addr.length then
    min 4 ((b.table_addr.getD (var_index + 1) 0 : Int) -
      (get_variable_address b var_index : Int))
  else 4

/-- The read-request frame built by read_variable: identifier
`can_id_base + 0x05 + (board_index << 4)`, byte 0 = `0x10 + length`,
bytes 1-3 = the 24-bit little-endian address, bytes 4-7 zero. -/
def read_request_message (b : BoardData) (var_index : Nat)
    (can_id_base board_index : Nat) : CANMessage :=
  let address := get_variable_address b var_index
  let read_can_id := can_id_base + 0x05 + (board_index <<< 4)
  let length := read_length b var_index
  { id := read_can_id,
    data := [0x10 + length,
             ((address &&& 0xFF : Nat) : Int),
             (((address >>> 8) &&& 0xFF : Nat) : Int),
             (((address >>> 16) &&& 0xFF : Nat) : Int),
             0x00, 0x00, 0x00, 0x00],
    msgtype := .standard,
    length := 8 }

/-- The typed decode performed by read_variable on an accepted response:
bytes 4-7 are combined with Python `|` and `<<` into a 32-bit value and the
low 3 bits of byte 0 select the signedness adjustment. -/
def decode_response_value (data : List Int) : Int :=
  let value :=
    Int.lor (Int.lor (Int.lor (data.getD 4 0) ((data.getD 5 0) <<< (8 : Int)))
        ((data.getD 6 0) <<< (16 : Int)))
      ((data.getD 7 0) <<< (24 : Int))
  let data_type := Int.land (data.getD 0 0) 0x07
  if data_type = 0x01 then (if value > 127 then value - 256 else value)
  else if data_type = 0x02 then (if value > 32767 then value - 65536 else value)
  else if data_type = 0x04 then
    (if value > 2147483647 then value - 4294967296 else value)
  else value

/-- RetainVarMonitor.read_variable.  The transport is abstracted by the result
its `send_message` call returns (`send_res`) and the `(result, message)` pair
its `receive_message` call returns (`recv`).  Returns the `(success, value)`
pair together with the trace of bus interactions.  A response frame shorter
than 8 bytes makes the Python code raise IndexError inside the `try` block,
which the handler turns into `(False, 0)`. -/
def read_variable (current_board : Option BoardData) (var_index : Nat)
    (can_id_base : Option Nat) (board_index : Nat) (send_res : CANResult)
    (recv : CANResult × Option CANMessage) : (Bool × Int) × List BusAction :=
  match current_board with
  | none => ((false, 0), [])
  | some board =>
    let base := can_id_base.getD (get_default_can_id_base board)
    let message := read_request_message board var_index base board_index
    if send_res ≠ .errOK then ((false, 0), [.send message])
    else
      match recv with
      | (recv_res, some response) =>
        if recv_res = .errOK then
          let expected_response_id := base + 0x0A + (board_index <<< 4)
          if response.id = expected_response_id then
            if 8 ≤ response.data.length then
              ((true, decode_response_value response.data),
               [.send message, .receive])
            else ((false, 0), [.send message, .receive])
          else ((false, 0), [.send message, .receive])
        else ((false, 0), [.send message, .receive])
      | (_, none) => ((false, 0), [.send message, .receive])

/-- The write-request frame built by write_variable: identifier
`can_id_base + 0x05 + (board_index << 4)`, byte 0 = `0x20 + length`,
bytes 1-3 = the 24-bit little-endian address, bytes 4-7 = the value
little-endian (Python `&`/`>>` on a possibly negative int). -/
def write_request_message (b : BoardData) (var_index : Nat) (value : Int)
    (can_id_base board_index : Nat) : CANMessage :=
  let address := get_variable_address b var_index
  let write_can_id := can_id_base + 0x05 + (board_index <<< 4)
  let length := write_length b var_index
  { id := write_can_id,
    data := [0x20 + length,
             ((address &&& 0xFF : Nat) : Int),
             (((address >>> 8) &&& 0xFF : Nat) : Int),
             (((address >>> 16) &&& 0xFF : Nat) : Int),
             Int.land value 0xFF,
             Int.land (value >>> (8 : Int)) 0xFF,
             Int.land (value >>> (16 : Int)) 0xFF,
             Int.land (value >>> (24 : Int)) 0xFF],
    msgtype := .standard,
    length := 8 }

/-- RetainVarMonitor.write_variable: sends the write request and returns True
exactly when the send result is ERR_OK.  No receive is performed (the code
after the first `return True` is unreachable). -/
def write_variable (current_board : Option BoardData) (var_index : Nat)
    (value : Int) (can_id_base : Option Nat) (board_index : Nat)
    (send_res : CANResult) : Bool × List BusAction :=
  match current_board with
  | none => (false, [])
  | some board =>
    let base := can_id_base.getD (get_default_can_id_base board)
    let message := write_request_message board var_index value base board_index
    if send_res ≠ .errOK then (false, [.send message])
    else (true, [.send message])

/-! Helper lemmas about the board catalog and the RetainVar engine. -/

lemma all_range_true {n : Nat} {p : Nat → Bool} (h : (List.range n).all p = true) :
    ∀ i, i < n → p i = true := by
  intro i hi
  exact List.all_eq_true.mp h i (List.mem_range.mpr hi)

/-- Boolean check that a table is non-decreasing between consecutive entries. -/
def table_ascending (t : List Nat) : Bool :=
  (List.range (t.length - 1)).all fun i => t.getD i 0 ≤ t.getD (i + 1) 0

lemma write_length_eq_read_length (b : BoardData) (i : Nat) :
    write_length b i = read_length b i := rfl

lemma mkBoardData_ascending (bt : String) :
    table_ascending (mkBoardData bt).table_addr = true := by
  unfold mkBoardData
  by_cases h1 : bt = "PCU"
  · rw [if_pos h1]; show table_ascending pcu_table_addr = true; decide
  rw [if_neg h1]
  by_cases h2 : bt = "TCU"
  · rw [if_pos h2]; show table_ascending tcu_table_addr = true; decide
  rw [if_neg h2]
  by_cases h3 : bt = "BMS"
  · rw [if_pos h3]; show table_ascending bms_table_addr = true; decide
  rw [if_neg h3]
  by_cases h4 : bt = "SCU"
  · rw [if_pos h4]; show table_ascending scu_table_addr = true; decide
  rw [if_neg h4]
  by_cases h5 : bt = "FCU"
  · rw [if_pos h5]; show table_ascending fcu_table_addr = true; decide
  rw [if_neg h5]
  by_cases h6 : bt = "WLU"
  · rw [if_pos h6]; show table_ascending wlu_table_addr = true; decide
  rw [if_neg h6]
  by_cases h7 : bt = "OBD_DC_DC"
  · rw [if_pos h7]; show table_ascending obd_dcdc_table_addr = true; decide
  rw [if_neg h7]
  by_cases h8 : bt = "CCU"
  · rw [if_pos h8]; show table_ascending ccu_table_addr = true; decide
  rw [if_neg h8]
  by_cases h9 : bt = "GATE"
  · rw [if_pos h9]; show table_ascending gate_table_addr = true; decide
  rw [if_neg h9]
  by_cases h10 : bt = "PDU"
  · rw [if_pos h10]; show table_ascending pdu_table_addr = true; decide
  rw [if_neg h10]
  by_cases h11 : bt = "ZCU"
  · rw [if_pos h11]; show table_ascending zcu_table_addr = true; decide
  rw [if_neg h11]
  by_cases h12 : bt = "VCU"
  · rw [if_pos h12]; show table_ascending vcu_table_addr = true; decide
  rw [if_neg h12]
  show table_ascending (List.replicate TABLE_ADDR_MAX 0) = true; decide

lemma read_length_bounds (b : BoardData)
    (h : table_ascending b.table_addr = true) (i : Nat) :
    0 ≤ read_length b i ∧ read_length b i ≤ 4 := by
  unfold read_length
  split_ifs with hlt
  · have hi : i < b.table_addr.length := by omega
    have hmono := all_range_true h i (by omega)
    simp only [decide_eq_true_eq] at hmono
    unfold get_variable_address
    rw [if_pos hi]
    constructor
    · have hc : (b.table_addr.getD i 0 : Int) ≤ (b.table_addr.getD (i+1) 0 : Int) := by
        exact_mod_cast hmono
      omega
    · exact min_le_left _ _
  · omega

lemma int_lor_natCast (a b : Nat) :
    Int.lor (a : Int) (b : Int) = ((a ||| b : Nat) : Int) := rfl

lemma int_land_natCast (a b : Nat) :
    Int.land (a : Int) (b : Int) = ((a &&& b : Nat) : Int) := rfl

lemma int_shiftLeft_natCast (a k : Nat) :
    (a : Int) <<< (k : Int) = ((a <<< k : Nat) : Int) := by
  show ((Nat.shiftLeft' false a k : Nat) : Int) = _
  rw [Nat.shiftLeft'_false]

lemma nat_bytes_lor (n4 n5 n6 n7 : Nat)
    (h4 : n4 < 256) (h5 : n5 < 256) (h6 : n6 < 256) :
    ((n4 ||| n5 <<< 8) ||| n6 <<< 16) ||| n7 <<< 24
      = n4 + 256 * n5 + 65536 * n6 + 16777216 * n7 := by
  rw [Nat.shiftLeft_eq, Nat.shiftLeft_eq, Nat.shiftLeft_eq]
  have s1 : n4 ||| n5 * 2 ^ 8 = 2 ^ 8 * n5 + n4 := by
    rw [Nat.lor_comm, Nat.mul_comm]
    exact (Nat.mul_add_lt_is_or h4 n5).symm
  rw [s1]
  have s2 : (2 ^ 8 * n5 + n4) ||| n6 * 2 ^ 16 = 2 ^ 16 * n6 + (2 ^ 8 * n5 + n4) := by
    rw [Nat.lor_comm, Nat.mul_comm]
    exact (Nat.mul_add_lt_is_or (by omega) n6).symm
  rw [s2]
  have s3 : (2 ^ 16 * n6 + (2 ^ 8 * n5 + n4)) ||| n7 * 2 ^ 24
      = 2 ^ 24 * n7 + (2 ^ 16 * n6 + (2 ^ 8 * n5 + n4)) := by
    rw [Nat.lor_comm, Nat.mul_comm]
    exact (Nat.mul_add_lt_is_or (by omega) n7).symm
  rw [s3]
  ring

/-- The decoding described by the specification: a little-endian 32-bit
unsigned value from payload bytes 4-7, adjusted by the width tag from the low
3 bits of byte 0 (8-bit signed for tag 1, 16-bit signed for tag 2, 32-bit
signed for tag 4, unsigned otherwise).  Stated over plain arithmetic for
comparison with `decode_response_value`, which mirrors the source's bitwise
expressions. -/
def le32_tagged_decode (tag value : Nat) : Int :=
  if tag = 1 then (if 127 < value then (value : Int) - 256 else (value : Int))
  else if tag = 2 then
    (if 32767 < value then (value : Int) - 65536 else (value : Int))
  else if tag = 4 then
    (if 2147483647 < value then (value : Int) - 4294967296 else (value : Int))
  else (value : Int)

lemma decode_response_value_bytes (n0 n1 n2 n3 n4 n5 n6 n7 : Nat)
    (h4 : n4 < 256) (h5 : n5 < 256) (h6 : n6 < 256) :
    decode_response_value [(n0 : Int), (n1 : Int), (n2 : Int), (n3 : Int),
        (n4 : Int), (n5 : Int), (n6 : Int), (n7 : Int)]
      = le32_tagged_decode (n0 % 8)
          (n4 + 256 * n5 + 65536 * n6 + 16777216 * n7) := by
  unfold decode_response_value le32_tagged_decode
  simp only [List.getD_cons_zero, List.getD_cons_succ]
  rw [show (8 : Int) = ((8 : Nat) : Int) from rfl,
      show (16 : Int) = ((16 : Nat) : Int) from rfl,
      show (24 : Int) = ((24 : Nat) : Int) from rfl]
  rw [int_shiftLeft_natCast, int_shiftLeft_natCast, int_shiftLeft_natCast]
  rw [int_lor_natCast, int_lor_natCast, int_lor_natCast]
  rw [nat_bytes_lor n4 n5 n6 n7 h4 h5 h6]
  rw [show (7 : Int) = ((7 : Nat) : Int) from rfl, int_land_natCast]
  have hand : n0 &&& 7 = n0 % 8 := by
    have h7 : (7 : Nat) = 2 ^ 3 - 1 := by norm_num
    rw [h7, Nat.and_pow_two_sub_one_eq_mod]
  rw [hand]
  have c1 : (((n0 % 8 : Nat) : Int) = 1) ↔ n0 % 8 = 1 := by exact_mod_cast Iff.rfl
  have c2 : (((n0 % 8 : Nat) : Int) = 2) ↔ n0 % 8 = 2 := by exact_mod_cast Iff.rfl
  have c4 : (((n0 % 8 : Nat) : Int) = 4) ↔ n0 % 8 = 4 := by exact_mod_cast Iff.rfl
  have d1 : (((n4 + 256 * n5 + 65536 * n6 + 16777216 * n7 : Nat) : Int) > 127)
      ↔ 127 < n4 + 256 * n5 + 65536 * n6 + 16777216 * n7 := by
    exact_mod_cast Iff.rfl
  have d2 : (((n4 + 256 * n5 + 65536 * n6 + 16777216 * n7 : Nat) : Int) > 32767)
      ↔ 32767 < n4 + 256 * n5 + 65536 * n6 + 16777216 * n7 := by
    exact_mod_cast Iff.rfl
  have d4 : (((n4 + 256 * n5 + 65536 * n6 + 16777216 * n7 : Nat) : Int) > 2147483647)
      ↔ 2147483647 < n4 + 256 * n5 + 65536 * n6 + 16777216 * n7 := by
    exact_mod_cast Iff.rfl
  simp only [c1, c2, c4, d1, d2, d4]

lemma read_variable_accepted (b : BoardData) (var_index base board_index : Nat)
    (resp : CANMessage) (hid : resp.id = base + 0x0A + (board_index <<< 4))
    (hlen : 8 ≤ resp.data.length) :
    (read_variable (some b) var_index (some base) board_index .errOK
        (.errOK, some resp)).1 = (true, decode_response_value resp.data) := by
  unfold read_variable
  simp [hid, hlen]

/-! Claim theorems. -/

/-- C1 (amended): with a PCU board selected, can_id_base 0x300 and
board_index 0, read_variable on index 0 sends one request frame with
identifier 0x305 and 8-byte payload [0x12,0,0,0,0,0,0,0] (length 2,
address 0, command byte 0x10 + 2 = 0x12); and when the transport delivers a
frame with identifier 0x30A and payload [0x02,0,0,0,0x34,0x12,0,0],
read_variable returns success with the signed 16-bit value 4660. -/
theorem c1_pcu_read_end_to_end :
    read_variable (some (mkBoardData "PCU")) 0 (some 0x300) 0 .errOK
      (.errOK, some ⟨0x30A, [0x02, 0, 0, 0, 0x34, 0x12, 0, 0], .standard, 8⟩)
    = ((true, 4660),
       [.send ⟨0x305, [0x12, 0, 0, 0, 0, 0, 0, 0], .standard, 8⟩, .receive]) := by
  decide

/-- C1 counterexample: the claim as stated asserts the request payload is
[0x14,0,0,0,0,0,0,0]; the frame actually sent carries command byte 0x12
(0x10 plus the length 2 that the claim itself names), so the claimed trace is
not the produced trace. -/
theorem c1_counterexample :
    ¬ (read_variable (some (mkBoardData "PCU")) 0 (some 0x300) 0 .errOK
        (.errOK, some ⟨0x30A, [0x02, 0, 0, 0, 0x34, 0x12, 0, 0], .standard, 8⟩)).2
      = [.send ⟨0x305, [0x14, 0, 0, 0, 0, 0, 0, 0], .standard, 8⟩, .receive] := by
  decide

/-- C3: for every selected board (any board-type string, known or not) and
every variable index whose successor is still inside the address table, the
transfer length used by read_variable and write_variable equals
min(4, table_addr[index+1] - table_addr[index]), is the same for both
operations, and lies in [0, 4]; past the last table entry (in particular for
the last index) the length is exactly 4. -/
theorem c3_transfer_length (bt : String) (i : Nat) :
    (i + 1 < (mkBoardData bt).table_addr.length →
      read_length (mkBoardData bt) i
          = min 4 (((mkBoardData bt).table_addr.getD (i + 1) 0 : Int)
              - ((mkBoardData bt).table_addr.getD i 0 : Int))
        ∧ write_length (mkBoardData bt) i = read_length (mkBoardData bt) i
        ∧ 0 ≤ read_length (mkBoardData bt) i
        ∧ read_length (mkBoardData bt) i ≤ 4)
    ∧ (¬ i + 1 < (mkBoardData bt).table_addr.length →
        read_length (mkBoardData bt) i = 4
        ∧ write_length (mkBoardData bt) i = 4) := by
  constructor
  · intro h
    refine ⟨?_, write_length_eq_read_length _ _,
      read_length_bounds _ (mkBoardData_ascending bt) i⟩
    unfold read_length get_variable_address
    rw [if_pos h, if_pos (by omega)]
  · intro h
    rw [write_length_eq_read_length]
    unfold read_length
    rw [if_neg h]
    exact ⟨rfl, rfl⟩

/-- Witness for C3 at the PCU board: index 0 has length min(4, 2-0) = 2, and
index 50 (the last entry) has length 4. -/
theorem c3_transfer_length_witness :
    (0 + 1 < (mkBoardData "PCU").table_addr.length
      ∧ read_length (mkBoardData "PCU") 0
          = min 4 (((mkBoardData "PCU").table_addr.getD (0 + 1) 0 : Int)
              - ((mkBoardData "PCU").table_addr.getD 0 0 : Int))
      ∧ write_length (mkBoardData "PCU") 0 = read_length (mkBoardData "PCU") 0
      ∧ 0 ≤ read_length (mkBoardData "PCU") 0
      ∧ read_length (mkBoardData "PCU") 0 ≤ 4)
    ∧ (¬ 50 + 1 < (mkBoardData "PCU").table_addr.length
      ∧ read_length (mkBoardData "PCU") 50 = 4
      ∧ write_length (mkBoardData "PCU") 50 = 4) :=
  ⟨⟨by decide, (c3_transfer_length "PCU" 0).1 (by decide)⟩,
   ⟨by decide, (c3_transfer_length "PCU" 50).2 (by decide)⟩⟩

/-- C4: every response frame accepted by read_variable (identifier equal to
the expected response identifier, 8 payload bytes) decodes as the
little-endian 32-bit unsigned value of bytes 4-7 adjusted by the width tag in
the low 3 bits of byte 0 (le32_tagged_decode); and the boundary pairs decode
as 127 / -128 (tag 1), 32767 / -32768 (tag 2), 2147483647 / -2147483648
(tag 4), while any other tag leaves the value as unsigned 32-bit. -/
theorem c4_typed_decode (b : BoardData) (var_index base board_index : Nat)
    (n0 n1 n2 n3 n4 n5 n6 n7 : Nat)
    (h4 : n4 < 256) (h5 : n5 < 256) (h6 : n6 < 256) :
    ((read_variable (some b) var_index (some base) board_index .errOK
        (.errOK, some ⟨base + 0x0A + (board_index <<< 4),
          [(n0 : Int), (n1 : Int), (n2 : Int), (n3 : Int),
           (n4 : Int), (n5 : Int), (n6 : Int), (n7 : Int)], .standard, 8⟩)).1
      = (true, le32_tagged_decode (n0 % 8)
          (n4 + 256 * n5 + 65536 * n6 + 16777216 * n7)))
    ∧ decode_response_value [0x01, 0, 0, 0, 127, 0, 0, 0] = 127
    ∧ decode_response_value [0x01, 0, 0, 0, 128, 0, 0, 0] = -128
    ∧ decode_response_value [0x02, 0, 0, 0, 0xFF, 0x7F, 0, 0] = 32767
    ∧ decode_response_value [0x02, 0, 0, 0, 0x00, 0x80, 0, 0] = -32768
    ∧ decode_response_value [0x04, 0, 0, 0, 0xFF, 0xFF, 0xFF, 0x7F] = 2147483647
    ∧ decode_response_value [0x04, 0, 0, 0, 0x00, 0x00, 0x00, 0x80] = -2147483648
    ∧ decode_response_value [0x00, 0, 0, 0, 0x00, 0x00, 0x00, 0x80] = 2147483648
    ∧ decode_response_value [0x07, 0, 0, 0, 0xFF, 0xFF, 0xFF, 0xFF] = 4294967295 := by
  refine ⟨?_, by decide, by decide, by decide, by decide, by decide, by decide,
    by decide, by decide⟩
  rw [read_variable_accepted b var_index base board_index _ rfl (by simp)]
  rw [decode_response_value_bytes n0 n1 n2 n3 n4 n5 n6 n7 h4 h5 h6]

/-- Witness for C4: the PCU scenario response [0x02,0,0,0,0x34,0x12,0,0]
decodes through the tag-2 branch to 4660. -/
theorem c4_typed_decode_witness :
    ((0x34 : Nat) < 256 ∧ (0x12 : Nat) < 256 ∧ (0 : Nat) < 256)
    ∧ ((read_variable (some (mkBoardData "PCU")) 0 (some 0x300) 0 .errOK
        (.errOK, some ⟨0x300 + 0x0A + (0 <<< 4),
          [((2 : Nat) : Int), ((0 : Nat) : Int), ((0 : Nat) : Int),
           ((0 : Nat) : Int), ((0x34 : Nat) : Int), ((0x12 : Nat) : Int),
           ((0 : Nat) : Int), ((0 : Nat) : Int)], .standard, 8⟩)).1
      = (true, le32_tagged_decode (2 % 8)
          (0x34 + 256 * 0x12 + 65536 * 0 + 16777216 * 0))) :=
  ⟨⟨by decide, by decide, by decide⟩,
   (c4_typed_decode (mkBoardData "PCU") 0 0x300 0 2 0 0 0 0x34 0x12 0 0
     (by decide) (by decide) (by decide)).1⟩

/-- C5: for each width/signedness tag (0x01, 0x02, 0x04 and the unsigned
default 0x00) there is a representative value V in that width's range such
that encoding a write request for V (value little-endian in bytes 4-7, as
write_variable builds it) and decoding a synthetic response made of the same
bytes under that tag, as read_variable does, yields V back. -/
theorem c5_round_trip :
    (∃ V : Int, -128 ≤ V ∧ V ≤ 127 ∧
      decode_response_value ([0x01, 0, 0, 0] ++
        (write_request_message (mkBoardData "PCU") 3 V 0x300 0).data.drop 4) = V)
    ∧ (∃ V : Int, -32768 ≤ V ∧ V ≤ 32767 ∧
      decode_response_value ([0x02, 0, 0, 0] ++
        (write_request_message (mkBoardData "PCU") 3 V 0x300 0).data.drop 4) = V)
    ∧ (∃ V : Int, -2147483648 ≤ V ∧ V ≤ 2147483647 ∧
      decode_response_value ([0x04, 0, 0, 0] ++
        (write_request_message (mkBoardData "PCU") 3 V 0x300 0).data.drop 4) = V)
    ∧ (∃ V : Int, 0 ≤ V ∧ V < 4294967296 ∧
      decode_response_value ([0x00, 0, 0, 0] ++
        (write_request_message (mkBoardData "PCU") 3 V 0x300 0).data.drop 4) = V) :=
  ⟨⟨100, by decide, by decide, by decide⟩,
   ⟨1234, by decide, by decide, by decide⟩,
   ⟨100000, by decide, by decide, by decide⟩,
   ⟨3000000000, by decide, by decide, by decide⟩⟩

/-- C8: for every selected board, index and value, write_variable returns
True exactly when the request send returns ERR_OK, the bus trace is the
single send of the write request frame, and no receive is ever performed
before returning. -/
theorem c8_write_fire_and_forget (board : BoardData) (var_index : Nat)
    (value : Int) (can_id_base : Option Nat) (board_index : Nat)
    (send_res : CANResult) :
    ((write_variable (some board) var_index value can_id_base board_index
        send_res).1 = true ↔ send_res = .errOK)
    ∧ (write_variable (some board) var_index value can_id_base board_index
        send_res).2
      = [BusAction.send (write_request_message board var_index value
          (can_id_base.getD (get_default_can_id_base board)) board_index)]
    ∧ BusAction.receive ∉
        (write_variable (some board) var_index value can_id_base board_index
          send_res).2 := by
  unfold write_variable
  by_cases h : send_res = CANResult.errOK <;> simp [h]

/-- C9: constructing board data for an unrecognized board type does not fail:
it yields the default descriptor (51 zero addresses, no variable names), its
default CAN ID base falls back to 0x300, and select_board reports success. -/
theorem c9_unknown_board_default (bt : String) (h : bt ∉ known_board_types) :
    (mkBoardData bt).table_addr = List.replicate 51 0
    ∧ (mkBoardData bt).variable_names = []
    ∧ get_default_can_id_base (mkBoardData bt) = 0x300
    ∧ select_board bt = some (mkBoardData bt) := by
  simp only [known_board_types, List.mem_cons, List.mem_singleton, not_or] at h
  obtain ⟨n1, n2, n3, n4, n5, n6, n7, n8, n9, n10, n11, n12, -⟩ := h
  have hmk : mkBoardData bt = ⟨bt, List.replicate TABLE_ADDR_MAX 0, [], 0x300⟩ := by
    unfold mkBoardData
    rw [if_neg n1, if_neg n2, if_neg n6, if_neg n4]
    rw [if_neg n11, if_neg n3, if_neg n5, if_neg n7, if_neg n8, if_neg n10,
      if_neg n12, if_neg n9]
  refine ⟨by rw [hmk]; rfl, by rw [hmk], ?_, rfl⟩
  rw [hmk]
  unfold get_default_can_id_base board_can_id_bases
  have e1 : (bt == "PCU") = false := beq_eq_false_iff_ne.mpr n1
  have e2 : (bt == "TCU") = false := beq_eq_false_iff_ne.mpr n2
  have e3 : (bt == "WLU") = false := beq_eq_false_iff_ne.mpr n3
  have e4 : (bt == "OBD_DC_DC") = false := beq_eq_false_iff_ne.mpr n4
  have e5 : (bt == "CCU") = false := beq_eq_false_iff_ne.mpr n5
  have e6 : (bt == "GATE") = false := beq_eq_false_iff_ne.mpr n6
  have e7 : (bt == "PDU") = false := beq_eq_false_iff_ne.mpr n7
  have e8 : (bt == "ZCU") = false := beq_eq_false_iff_ne.mpr n8
  have e9 : (bt == "VCU") = false := beq_eq_false_iff_ne.mpr n9
  have e10 : (bt == "SCU") = false := beq_eq_false_iff_ne.mpr n10
  have e11 : (bt == "FCU") = false := beq_eq_false_iff_ne.mpr n11
  have e12 : (bt == "BMS") = false := beq_eq_false_iff_ne.mpr n12
  simp [List.lookup, e1, e2, e3, e4, e5, e6, e7, e8, e9, e10, e11, e12]

/-- Witness for C9 at the unrecognized board type "XYZ". -/
theorem c9_unknown_board_default_witness :
    "XYZ" ∉ known_board_types
    ∧ ((mkBoardData "XYZ").table_addr = List.replicate 51 0
      ∧ (mkBoardData "XYZ").variable_names = []
      ∧ get_default_can_id_base (mkBoardData "XYZ") = 0x300
      ∧ select_board "XYZ" = some (mkBoardData "XYZ")) :=
  ⟨by decide, c9_unknown_board_default "XYZ" (by decide)⟩

/-- C10: constructing a CANMessage with more than 8 data bytes is rejected
(ValueError, modelled as none) rather than producing a frame, and every
successfully constructed CANMessage has its length field equal to the number
of data bytes, which is at most 8. -/
theorem c10_payload_invariant (id : Nat) (data : List Int)
    (msgtype : MessageType) :
    (8 < data.length → mkCANMessage id data msgtype = none)
    ∧ ∀ m, mkCANMessage id data msgtype = some m →
        m.length = data.length ∧ m.length ≤ 8 := by
  constructor
  · intro h
    simp [mkCANMessage, h]
  · intro m hm
    unfold mkCANMessage at hm
    split at hm
    · exact absurd hm (by simp)
    · next hlen =>
      obtain rfl := Option.some.inj hm
      simp at hlen ⊢
      omega

/-- Witness for C10: a 9-byte payload is rejected; an 8-byte payload yields a
frame whose length field is 8. -/
theorem c10_payload_invariant_witness :
    (8 < (List.replicate 9 (0 : Int)).length
      ∧ mkCANMessage 7 (List.replicate 9 (0 : Int)) .standard = none)
    ∧ (mkCANMessage 7 (List.replicate 8 (0 : Int)) .standard
        = some ⟨7, List.replicate 8 (0 : Int), .standard, 8⟩
      ∧ (⟨7, List.replicate 8 (0 : Int), .standard, 8⟩ : CANMessage).length
          = (List.replicate 8 (0 : Int)).length
      ∧ (⟨7, List.replicate 8 (0 : Int), .standard, 8⟩ : CANMessage).length ≤ 8) :=
  ⟨⟨by decide, (c10_payload_invariant 7 (List.replicate 9 0) .standard).1 (by decide)⟩,
   ⟨by decide, (c10_payload_invariant 7 (List.replicate 8 0) .standard).2 _ (by decide)⟩⟩
/-! Bootloader image loader (BootloaderProtocol.load_hex_file).  A text file
is modelled as the list of its lines, each line a list of characters; an
unreadable file (I/O error) is modelled as `none` contents. -/

/-- Python str.strip(): drop whitespace from both ends. -/
def python_strip (l : List Char) : List Char :=
  ((l.dropWhile Char.isWhitespace).reverse.dropWhile Char.isWhitespace).reverse

/-- Python slicing `l[a:b]` for 0 <= a <= b (never raises, clamps to the
available characters). -/
def py_slice (l : List Char) (a b : Nat) : List Char :=
  (l.drop a).take (b - a)

def hex_digit_val (c : Char) : Option Nat :=
  if '0' ≤ c ∧ c ≤ '9' then some (c.toNat - '0'.toNat)
  else if 'a' ≤ c ∧ c ≤ 'f' then some (c.toNat - 'a'.toNat + 10)
  else if 'A' ≤ c ∧ c ≤ 'F' then some (c.toNat - 'A'.toNat + 10)
  else none

def hex_digits_val : List Char → Nat → Option Nat
  | [], acc => some acc
  | c :: rest, acc =>
    match hex_digit_val c with
    | none => none
    | some d => hex_digits_val rest (16 * acc + d)

/-- Python `int(s, 16)` restricted to the plain case of a non-empty string of
hex digits (the only inputs the parser feeds it; we do not model optional
signs, 0x prefixes or underscores).  `none` models the ValueError raised on
an empty or non-hex string. -/
def parse_hex_int (s : List Char) : Option Nat :=
  if s = [] then none else hex_digits_val s 0

/-- Outcome of one line inside the parsing loop of load_hex_file:
data record appended, end-of-file break, silent skip (continue), or an
exception raised while parsing the line (which aborts the whole load). -/
inductive HexLineRes where
  | skip
  | endOfFile
  | dataRec (words : List Nat)
  | malformed
deriving DecidableEq, Repr

/-- The inner `for i in range(byte_count // 2)` loop of a data record:
reads 4-hex-digit words starting at text offset `ds` (int() raising on a
bad or empty slice makes the whole line malformed). -/
def collect_words (l : List Char) : Nat → Nat → Option (List Nat)
  | 0, _ => some []
  | n + 1, ds =>
    match parse_hex_int (py_slice l ds (ds + 4)) with
    | none => none
    | some w => (collect_words l n (ds + 4)).map (fun ws => w :: ws)

/-- One iteration of the line loop in load_hex_file: strip, skip blank or
non-':' lines, parse byte count / address / record type (in source order, so
a parse failure anywhere raises), then dispatch on the record type.  The
`max_address` bookkeeping only feeds a log message and is not modelled. -/
def parse_hex_line (raw : List Char) : HexLineRes :=
  let line := python_strip raw
  if line = [] ∨ line.head? ≠ some ':' then .skip
  else
    match parse_hex_int (py_slice line 1 3) with
    | none => .malformed
    | some byte_count =>
      match parse_hex_int (py_slice line 3 7) with
      | none => .malformed
      | some _address =>
        match parse_hex_int (py_slice line 7 9) with
        | none => .malformed
        | some record_type =>
          if record_type = 0 then
            match collect_words line (byte_count / 2) 9 with
            | none => .malformed
            | some ws => .dataRec ws
          else if record_type = 1 then .endOfFile
          else .skip

/-- The line loop of load_hex_file over the remaining lines, accumulating
`self.data_bytes`. -/
def process_hex_lines : List (List Char) → List Nat → Option (List Nat)
  | [], acc => some acc
  | l :: rest, acc =>
    match parse_hex_line l with
    | .skip => process_hex_lines rest acc
    | .endOfFile => some acc
    | .dataRec ws => process_hex_lines rest (acc ++ ws)
    | .malformed => none

/-- BootloaderProtocol.load_hex_file: `none` contents model an I/O error
(open failing); a malformed line raises inside the `try`, and both paths
return False (`none`).  On success the word buffer and the reset cursor
(`self.data_ptr = 0`) are returned. -/
def load_hex_file (contents : Option (List (List Char))) :
    Option (List Nat × Int) :=
  match contents with
  | none => none
  | some lines => (process_hex_lines lines []).map (fun buf => (buf, 0))

/-- Byte count field of a (stripped) record line, for stating the
words-per-record property. -/
def record_byte_count (raw : List Char) : Nat :=
  (parse_hex_int (py_slice (python_strip raw) 1 3)).getD 0

-- quick sanity checks
example : parse_hex_line (":0400000012345678".toList) = .dataRec [0x1234, 0x5678] := by decide
example : parse_hex_line (":00000001FF".toList) = .endOfFile := by decide
example : parse_hex_line ("garbage".toList) = .skip := by decide
example : parse_hex_line ("".toList) = .skip := by decide
example : parse_hex_line (":ZZ00000000".toList) = .malformed := by decide
example : parse_hex_line (":00000002".toList) = .skip := by decide
example : load_hex_file (some [":0400000012345678".toList, ":00000001FF".toList,
  ":0200000099AA".toList]) = some ([0x1234, 0x5678], 0) := by decide

lemma collect_words_length (l : List Char) :
    ∀ n ds ws, collect_words l n ds = some ws → ws.length = n := by
  intro n
  induction n with
  | zero =>
    intro ds ws h
    simp only [collect_words] at h
    obtain rfl := Option.some.inj h
    rfl
  | succ n ih =>
    intro ds ws h
    simp only [collect_words] at h
    split at h
    · exact absurd h (by simp)
    · next w heq =>
      obtain ⟨ws', hws', rfl⟩ := Option.map_eq_some'.mp h
      simp [ih _ _ hws']


lemma parse_hex_line_dataRec_length (l : List Char) (ws : List Nat)
    (h : parse_hex_line l = .dataRec ws) :
    ws.length = record_byte_count l / 2 := by
  simp only [parse_hex_line] at h
  split at h
  · simp at h
  · split at h
    · simp at h
    · next bc hbc =>
      split at h
      · simp at h
      · split at h
        · simp at h
        · split at h
          · split at h
            · simp at h
            · next ws' hcw =>
              injection h with h'
              subst h'
              rw [record_byte_count, hbc]
              simpa using collect_words_length _ _ _ _ hcw
          · split at h <;> simp at h

/-- C6 (amended): the hex-image loader appends exactly byte_count/2 words to
the word buffer for each well-formed record of type 0; terminates parsing at
the first record of type 1 even if further lines follow; skips (without
affecting the buffer) any line that is blank, does not start with ':', or
carries a record type other than 0 and 1; fails the whole load (returns
False, not a skip) when a line is malformed; on success resets the read
cursor to 0; and returns failure on an I/O error. -/
theorem c6_hex_loader (l : List Char) :
    (∀ rest acc ws, parse_hex_line l = .dataRec ws →
        process_hex_lines (l :: rest) acc = process_hex_lines rest (acc ++ ws))
    ∧ (∀ ws, parse_hex_line l = .dataRec ws →
        ws.length = record_byte_count l / 2)
    ∧ (∀ rest acc, parse_hex_line l = .endOfFile →
        process_hex_lines (l :: rest) acc = some acc)
    ∧ (∀ rest acc, parse_hex_line l = .skip →
        process_hex_lines (l :: rest) acc = process_hex_lines rest acc)
    ∧ ((python_strip l = [] ∨ (python_strip l).head? ≠ some ':') →
        parse_hex_line l = .skip)
    ∧ (∀ bc a rt, ¬(python_strip l = [] ∨ (python_strip l).head? ≠ some ':') →
        parse_hex_int (py_slice (python_strip l) 1 3) = some bc →
        parse_hex_int (py_slice (python_strip l) 3 7) = some a →
        parse_hex_int (py_slice (python_strip l) 7 9) = some rt →
        rt ≠ 0 → rt ≠ 1 → parse_hex_line l = .skip)
    ∧ (∀ rest acc, parse_hex_line l = .malformed →
        process_hex_lines (l :: rest) acc = none)
    ∧ (∀ lines buf c, load_hex_file (some lines) = some (buf, c) → c = 0)
    ∧ load_hex_file none = none := by
  refine ⟨?_, fun ws h => parse_hex_line_dataRec_length l ws h, ?_, ?_, ?_, ?_, ?_, ?_, rfl⟩
  · intro rest acc ws h
    simp only [process_hex_lines, h]
  · intro rest acc h
    simp only [process_hex_lines, h]
  · intro rest acc h
    simp only [process_hex_lines, h]
  · intro h
    simp only [parse_hex_line]
    rw [if_pos h]
  · intro bc a rt hcolon hbc ha hrt h0 h1
    simp only [parse_hex_line]
    rw [if_neg hcolon, hbc, ha, hrt]
    simp [h0, h1]
  · intro rest acc h
    simp only [process_hex_lines, h]
  · intro lines buf c h
    unfold load_hex_file at h
    obtain ⟨buf', -, heq⟩ := Option.map_eq_some'.mp h
    exact ((Prod.mk.injEq _ _ _ _).mp heq).2.symm

/-- C6 counterexample: the claim as stated says a malformed line is skipped
without affecting the buffer, which for an image consisting of only the
malformed line ":ZZ00000000" would make the load succeed with an empty
buffer; the code instead raises inside int() and load_hex_file returns
False (none). -/
theorem c6_counterexample :
    parse_hex_line (":ZZ00000000".toList) = .malformed
    ∧ load_hex_file (some [":ZZ00000000".toList]) = none
    ∧ load_hex_file (some [":ZZ00000000".toList]) ≠ some ([], 0) := by
  refine ⟨by decide, by decide, by decide⟩

/-- Witness for C6 on a concrete two-record image followed by a trailing
data line: the data record contributes byte_count/2 = 2 words, the EOF
record stops parsing before the trailing line, and a missing file fails. -/
theorem c6_hex_loader_witness :
    parse_hex_line (":0400000012345678".toList) = .dataRec [0x1234, 0x5678]
    ∧ process_hex_lines [":0400000012345678".toList, ":00000001FF".toList,
        ":0400000099AA99AA".toList] []
      = process_hex_lines [":00000001FF".toList, ":0400000099AA99AA".toList]
          ([] ++ [0x1234, 0x5678])
    ∧ ([0x1234, 0x5678] : List Nat).length
        = record_byte_count (":0400000012345678".toList) / 2
    ∧ parse_hex_line (":00000001FF".toList) = .endOfFile
    ∧ process_hex_lines [":00000001FF".toList, ":0400000099AA99AA".toList]
        [0x1234, 0x5678] = some [0x1234, 0x5678]
    ∧ load_hex_file none = none :=
  ⟨by decide,
   (c6_hex_loader (":0400000012345678".toList)).1 _ [] _ (by decide),
   (c6_hex_loader (":0400000012345678".toList)).2.1 _ (by decide),
   by decide,
   (c6_hex_loader (":00000001FF".toList)).2.2.1 _ _ (by decide),
   (c6_hex_loader ":x".toList).2.2.2.2.2.2.2.2⟩
/-! Bootloader upload engine (BootloaderProtocol).  The mutable protocol
object is a record; the transport is an oracle giving the result of the
n-th send_message call; frames handed to the transport are accumulated in
`sent`. -/

structure BootState where
  data_bytes : List Nat
  data_ptr : Int
  upload_step : Int
  pic_address : Int
  send_count : Nat
  sent : List CANMessage
deriving DecidableEq, Repr

/-- CANCommunication.send_message as seen by the bootloader: the frame is
handed to the bus and the oracle decides the result of this (send_count-th)
call. -/
def bus_send (oracle : Nat → CANResult) (s : BootState) (m : CANMessage) :
    CANResult × BootState :=
  (oracle s.send_count,
   { s with send_count := s.send_count + 1, sent := s.sent ++ [m] })

/-- BootloaderProtocol.send_command: all-zero 8 byte payload; on success the
step counter increments, on failure it resets to 0. -/
def send_command (oracle : Nat → CANResult) (s : BootState)
    (command_id : Nat) : CANResult × BootState :=
  let message : CANMessage := ⟨command_id, List.replicate 8 0, .standard, 8⟩
  let r := bus_send oracle s message
  if r.1 = .errOK then (r.1, { r.2 with upload_step := r.2.upload_step + 1 })
  else (r.1, { r.2 with upload_step := 0 })

/-- BootloaderProtocol.send_address: 16-bit little-endian address in bytes
0-1, bytes 2-7 zero. -/
def send_address (oracle : Nat → CANResult) (s : BootState)
    (address_id : Nat) (address : Int) : CANResult × BootState :=
  let message : CANMessage :=
    ⟨address_id,
     [Int.land address 0xFF, Int.land (address >>> (8 : Int)) 0xFF,
      0, 0, 0, 0, 0, 0], .standard, 8⟩
  let r := bus_send oracle s message
  if r.1 = .errOK then (r.1, { r.2 with upload_step := r.2.upload_step + 1 })
  else (r.1, { r.2 with upload_step := 0 })

/-- Python list indexing `l[i]` with an int index: non-negative indices from
the front, negative indices wrap from the back.  (An out-of-range access
raises in Python; every call site here is guarded by `data_ptr < len`, and
the claims below never reach a negative cursor, so the default 0 is inert.) -/
def py_list_get (l : List Nat) (i : Int) : Nat :=
  if 0 ≤ i then l.getD i.toNat 0 else l.getD (l.length - (-i).toNat) 0

/-- One iteration of the `for i in range(8)` byte-filling loop of send_data:
below the end of the buffer, even positions append the low byte of the
current word and odd positions append the high byte and advance the cursor;
past the end, pad with 0xFF. -/
def fill_step (buf : List Nat) (st : List Int × Int) (i : Nat) :
    List Int × Int :=
  if st.2 < (buf.length : Int) then
    let word := py_list_get buf st.2
    if i % 2 = 0 then (st.1 ++ [((word &&& 0xFF : Nat) : Int)], st.2)
    else (st.1 ++ [(((word >>> 8) &&& 0xFF : Nat) : Int)], st.2 + 1)
  else (st.1 ++ [(0xFF : Int)], st.2)

/-- The full 8-byte filling loop, returning the frame payload and the new
cursor. -/
def fill_frame (buf : List Nat) (ptr : Int) : List Int × Int :=
  (List.range 8).foldl (fill_step buf) ([], ptr)

/-- BootloaderProtocol.send_data.  The guard `not self.data_ptr or not
self.data_bytes` is Python truthiness: it fires when the cursor is 0 or the
buffer is empty.  The frame is a CANMessage built with `data=[]` and then
mutated by appends, so its `length` field keeps the value 0 set by
`__post_init__`.  `hasattr(self, 'start_addr')` is always False (nothing
ever sets `start_addr`), so `addr_offset` is just `data_ptr * 2`.  On a send
failure the cursor rewinds by 8. -/
def send_data (oracle : Nat → CANResult) (s : BootState) (data_id : Nat) :
    CANResult × BootState :=
  if s.data_ptr = 0 ∨ s.data_bytes = [] then (.errPARMVAL, s)
  else
    let fill := fill_frame s.data_bytes s.data_ptr
    let message : CANMessage := ⟨data_id, fill.1, .standard, 0⟩
    let r := bus_send oracle { s with data_ptr := fill.2 } message
    if r.1 = .errOK then
      let addr_offset : Int := fill.2 * 2 - 0
      if addr_offset % 64 = 0 then
        (r.1, { r.2 with upload_step := r.2.upload_step - 1,
                         pic_address := r.2.pic_address + 64 })
      else (r.1, r.2)
    else (r.1, { r.2 with data_ptr := r.2.data_ptr - 8 })

-- sanity: cursor 0 means PARMVAL, untouched state
example (oracle : Nat → CANResult) (s : BootState) (h : s.data_ptr = 0) (d : Nat) :
    send_data oracle s d = (.errPARMVAL, s) := by
  simp [send_data, h]

lemma fill_pair (buf : List Nat) (bytes : List Int) (p : Int) (i j : Nat)
    (rest : List Nat) (hlt : p < (buf.length : Int)) (hi : i % 2 = 0)
    (hj : j % 2 = 1) :
    List.foldl (fill_step buf) (bytes, p) (i :: j :: rest)
      = List.foldl (fill_step buf)
          (bytes ++ [((py_list_get buf p &&& 0xFF : Nat) : Int),
                     (((py_list_get buf p >>> 8) &&& 0xFF : Nat) : Int)],
           p + 1) rest := by
  simp only [List.foldl]
  rw [show fill_step buf (bytes, p) i
      = (bytes ++ [((py_list_get buf p &&& 0xFF : Nat) : Int)], p) by
    rw [fill_step, if_pos (by exact hlt)]
    simp [hi]]
  rw [show fill_step buf
        (bytes ++ [((py_list_get buf p &&& 0xFF : Nat) : Int)], p) j
      = (bytes ++ [((py_list_get buf p &&& 0xFF : Nat) : Int),
                   (((py_list_get buf p >>> 8) &&& 0xFF : Nat) : Int)], p + 1) by
    rw [fill_step, if_pos (by exact hlt)]
    have : ¬ j % 2 = 0 := by omega
    simp [this]]

lemma fill_frame_ptr (buf : List Nat) (p : Int)
    (h : p + 4 ≤ (buf.length : Int)) :
    (fill_frame buf p).2 = p + 4 ∧ (fill_frame buf p).1.length = 8 := by
  have hrange : List.range 8 = [0, 1, 2, 3, 4, 5, 6, 7] := rfl
  rw [fill_frame, hrange]
  rw [fill_pair buf [] p 0 1 _ (by omega) rfl rfl]
  rw [fill_pair buf _ (p + 1) 2 3 _ (by omega) rfl rfl]
  rw [fill_pair buf _ (p + 1 + 1) 4 5 _ (by omega) rfl rfl]
  rw [fill_pair buf _ (p + 1 + 1 + 1) 6 7 _ (by omega) rfl rfl]
  simp only [List.foldl]
  constructor
  · omega
  · simp

lemma send_data_guard (oracle : Nat → CANResult) (s : BootState) (data_id : Nat)
    (h : (send_data oracle s data_id).1 = .errOK) :
    s.data_ptr ≠ 0 ∧ s.data_bytes ≠ [] := by
  by_cases hg : s.data_ptr = 0 ∨ s.data_bytes = []
  · rw [send_data, if_pos hg] at h
    exact absurd h (by simp)
  · push_neg at hg
    exact hg

lemma send_data_result (oracle : Nat → CANResult) (s : BootState) (data_id : Nat)
    (hp : s.data_ptr ≠ 0) (hb : s.data_bytes ≠ []) :
    (send_data oracle s data_id).1 = oracle s.send_count := by
  rw [send_data, if_neg (by simp [hp, hb])]
  simp only [bus_send]
  split_ifs <;> rfl

lemma send_data_ok_state (oracle : Nat → CANResult) (s : BootState) (data_id : Nat)
    (hp : s.data_ptr ≠ 0) (hb : s.data_bytes ≠ [])
    (h4 : s.data_ptr + 4 ≤ (s.data_bytes.length : Int))
    (hok : oracle s.send_count = .errOK) :
    send_data oracle s data_id
      = (.errOK,
         { s with data_ptr := s.data_ptr + 4,
                  send_count := s.send_count + 1,
                  sent := s.sent ++
                    [⟨data_id, (fill_frame s.data_bytes s.data_ptr).1, .standard, 0⟩],
                  upload_step :=
                    if ((s.data_ptr + 4) * 2 - 0) % 64 = 0 then s.upload_step - 1
                    else s.upload_step,
                  pic_address :=
                    if ((s.data_ptr + 4) * 2 - 0) % 64 = 0 then s.pic_address + 64
                    else s.pic_address }) := by
  obtain ⟨hfp, -⟩ := fill_frame_ptr s.data_bytes s.data_ptr h4
  rw [send_data, if_neg (by simp [hp, hb])]
  simp only [bus_send, hfp, hok, if_pos rfl]
  split_ifs <;> rfl

/-- Iterated send_data: the state after n consecutive calls. -/
def send_data_iter (oracle : Nat → CANResult) (data_id : Nat) :
    Nat → BootState → BootState
  | 0, s => s
  | n + 1, s => (send_data oracle (send_data_iter oracle data_id n s) data_id).2

lemma send_data_run (oracle : Nat → CANResult) (data_id : Nat) (s0 : BootState)
    (h32 : s0.data_ptr % 32 = 0)
    (hlen : s0.data_ptr + 32 ≤ (s0.data_bytes.length : Int))
    (hok : ∀ i, i < 8 →
      (send_data oracle (send_data_iter oracle data_id i s0) data_id).1 = .errOK) :
    ∀ i, i ≤ 8 →
      (send_data_iter oracle data_id i s0).data_ptr = s0.data_ptr + 4 * i
      ∧ (send_data_iter oracle data_id i s0).data_bytes = s0.data_bytes
      ∧ (send_data_iter oracle data_id i s0).send_count = s0.send_count + i
      ∧ (send_data_iter oracle data_id i s0).sent.length = s0.sent.length + i
      ∧ (i ≤ 7 →
          (send_data_iter oracle data_id i s0).pic_address = s0.pic_address
          ∧ (send_data_iter oracle data_id i s0).upload_step = s0.upload_step)
      ∧ (i = 8 →
          (send_data_iter oracle data_id i s0).pic_address = s0.pic_address + 64
          ∧ (send_data_iter oracle data_id i s0).upload_step
              = s0.upload_step - 1) := by
  intro i
  induction i with
  | zero =>
    intro _
    refine ⟨by simp [send_data_iter], rfl, by simp [send_data_iter],
      by simp [send_data_iter], fun _ => ⟨rfl, rfl⟩, fun h8 => absurd h8 (by omega)⟩
  | succ n ih =>
    intro hn8
    obtain ⟨hptr, hbytes, hcount, hsent, hpic7, -⟩ := ih (by omega)
    have hokn := hok n (by omega)
    have hg := send_data_guard oracle _ data_id hokn
    have horc : oracle ((send_data_iter oracle data_id n s0).send_count)
        = .errOK := by
      rw [← send_data_result oracle _ data_id hg.1 hg.2]
      exact hokn
    have h4 : (send_data_iter oracle data_id n s0).data_ptr + 4
        ≤ ((send_data_iter oracle data_id n s0).data_bytes.length : Int) := by
      rw [hptr, hbytes]
      omega
    have hstate := send_data_ok_state oracle _ data_id hg.1 hg.2 h4 horc
    have hiter : send_data_iter oracle data_id (n + 1) s0
        = (send_data oracle (send_data_iter oracle data_id n s0) data_id).2 := rfl
    obtain ⟨hp7, hu7⟩ := hpic7 (by omega)
    by_cases h7 : n = 7
    · subst h7
      have hcond : ((((send_data_iter oracle data_id 7 s0).data_ptr + 4) * 2 - 0)
          % 64 = 0) := by
        rw [hptr]
        omega
      rw [hiter, hstate]
      refine ⟨?_, ?_, ?_, ?_, fun hle => absurd hle (by omega), fun _ => ⟨?_, ?_⟩⟩
      · show (send_data_iter oracle data_id 7 s0).data_ptr + 4 = _
        rw [hptr]; ring
      · exact hbytes
      · show (send_data_iter oracle data_id 7 s0).send_count + 1 = _
        rw [hcount]
      · show ((send_data_iter oracle data_id 7 s0).sent ++ _).length = _
        rw [List.length_append, hsent]
        simp only [List.length_singleton]
      · show (if (((send_data_iter oracle data_id 7 s0).data_ptr + 4) * 2 - 0)
            % 64 = 0 then (send_data_iter oracle data_id 7 s0).pic_address + 64
            else (send_data_iter oracle data_id 7 s0).pic_address) = _
        rw [if_pos hcond, hp7]
      · show (if (((send_data_iter oracle data_id 7 s0).data_ptr + 4) * 2 - 0)
            % 64 = 0 then (send_data_iter oracle data_id 7 s0).upload_step - 1
            else (send_data_iter oracle data_id 7 s0).upload_step) = _
        rw [if_pos hcond, hu7]
    · have hcond : ¬ ((((send_data_iter oracle data_id n s0).data_ptr + 4) * 2 - 0)
          % 64 = 0) := by
        rw [hptr]
        omega
      rw [hiter, hstate]
      refine ⟨?_, hbytes, ?_, ?_, fun _ => ⟨?_, ?_⟩,
        fun h8 => absurd h8 (by omega)⟩
      · show (send_data_iter oracle data_id n s0).data_ptr + 4 = _
        rw [hptr]; push_cast; ring
      · show (send_data_iter oracle data_id n s0).send_count + 1 = _
        rw [hcount]
        omega
      · show ((send_data_iter oracle data_id n s0).sent ++ _).length = _
        rw [List.length_append, hsent]
        simp only [List.length_singleton]
        omega
      · show (if (((send_data_iter oracle data_id n s0).data_ptr + 4) * 2 - 0)
            % 64 = 0 then (send_data_iter oracle data_id n s0).pic_address + 64
            else (send_data_iter oracle data_id n s0).pic_address) = _
        rw [if_neg hcond, hp7]
      · show (if (((send_data_iter oracle data_id n s0).data_ptr + 4) * 2 - 0)
            % 64 = 0 then (send_data_iter oracle data_id n s0).upload_step - 1
            else (send_data_iter oracle data_id n s0).upload_step) = _
        rw [if_neg hcond, hu7]

/-- C7: in the upload chunk loop, whenever the chunk starts with the word
cursor at a multiple of 32, the buffer holds at least 32 more words, and all
8 data frames of the chunk are sent successfully, the target address
(pic_address) and the step counter (upload_step) are unchanged after each of
the first 7 frames, and after exactly the 8th frame (64 bytes) pic_address
has advanced by exactly 64 and upload_step has decremented by exactly 1. -/
theorem c7_chunk_boundary (oracle : Nat → CANResult) (data_id : Nat) (s0 : BootState)
    (h32 : s0.data_ptr % 32 = 0)
    (hlen : s0.data_ptr + 32 ≤ (s0.data_bytes.length : Int))
    (hok : ∀ i, i < 8 →
      (send_data oracle (send_data_iter oracle data_id i s0) data_id).1 = .errOK) :
    (∀ i, 1 ≤ i → i ≤ 7 →
        (send_data_iter oracle data_id i s0).pic_address = s0.pic_address
        ∧ (send_data_iter oracle data_id i s0).upload_step = s0.upload_step)
    ∧ (send_data_iter oracle data_id 8 s0).pic_address = s0.pic_address + 64
    ∧ (send_data_iter oracle data_id 8 s0).upload_step = s0.upload_step - 1
    ∧ (send_data_iter oracle data_id 8 s0).sent.length = s0.sent.length + 8 := by
  have core := send_data_run oracle data_id s0 h32 hlen hok
  refine ⟨fun i h1 h7 => (core i (by omega)).2.2.2.2.1 (by omega), ?_, ?_, ?_⟩
  · exact ((core 8 (by omega)).2.2.2.2.2 rfl).1
  · exact ((core 8 (by omega)).2.2.2.2.2 rfl).2
  · exact (core 8 (by omega)).2.2.2.1

/-- Witness for C7: a 64-word buffer with the cursor at 32 and an always-OK
transport; after 8 data frames the address moved from 64 to 128 and the step
counter from 4 to 3. -/
theorem c7_chunk_boundary_witness :
    (((32 : Int) % 32 = 0)
      ∧ ((32 : Int) + 32 ≤ (((List.replicate 64 0 : List Nat)).length : Int))
      ∧ (∀ i, i < 8 →
          (send_data (fun _ => .errOK)
            (send_data_iter (fun _ => .errOK) 0x324 i
              ⟨List.replicate 64 0, 32, 4, 64, 0, []⟩) 0x324).1 = .errOK))
    ∧ ((send_data_iter (fun _ => .errOK) 0x324 8
          ⟨List.replicate 64 0, 32, 4, 64, 0, []⟩).pic_address
        = (⟨List.replicate 64 0, 32, 4, 64, 0, []⟩ : BootState).pic_address + 64
      ∧ (send_data_iter (fun _ => .errOK) 0x324 8
          ⟨List.replicate 64 0, 32, 4, 64, 0, []⟩).upload_step
        = (⟨List.replicate 64 0, 32, 4, 64, 0, []⟩ : BootState).upload_step - 1) :=
  ⟨⟨by decide, by decide, by decide⟩,
   (c7_chunk_boundary (fun _ => .errOK) 0x324 ⟨List.replicate 64 0, 32, 4, 64, 0, []⟩
      (by decide) (by decide) (by decide)).2.1,
   (c7_chunk_boundary (fun _ => .errOK) 0x324 ⟨List.replicate 64 0, 32, 4, 64, 0, []⟩
      (by decide) (by decide) (by decide)).2.2.1⟩

/-- The inner `for i in range(8)` data-frame loop of program_device: stops at
the first send_data result that is not ERR_OK. -/
def send_data_n (oracle : Nat → CANResult) (data_id : Nat) :
    Nat → BootState → CANResult × BootState
  | 0, s => (.errOK, s)
  | n + 1, s =>
    let r := send_data oracle s data_id
    if r.1 = .errOK then send_data_n oracle data_id n r.2 else r

/-- The `while self.data_ptr < len(self.data_bytes)` loop of program_device
followed by the verify command.  The loop consumes at least one word per
iteration when it makes progress, so `data_bytes.length + 1` fuel (supplied
by program_device) is never exhausted; the fuel-0 branch is unreachable. -/
def upload_loop (oracle : Nat → CANResult) (device_id : Nat) :
    Nat → BootState → Bool × List CANMessage
  | 0, s => (false, s.sent)
  | fuel + 1, s =>
    if s.data_ptr < (s.data_bytes.length : Int) then
      let ra := send_address oracle s (device_id + 3) s.pic_address
      if ra.1 ≠ .errOK then (false, ra.2.sent)
      else
        let rd := send_data_n oracle (device_id + 4) 8 ra.2
        if rd.1 ≠ .errOK then (false, rd.2.sent)
        else upload_loop oracle device_id fuel rd.2
    else
      let rv := send_command oracle s (device_id + 5)
      if rv.1 ≠ .errOK then (false, rv.2.sent) else (true, rv.2.sent)

/-- BootloaderProtocol.program_device: load the image, reset (device_id + 0),
settle, start load (device_id + 2), then address/data chunks and verify.
Returns the success flag together with every frame handed to the bus. -/
def program_device (oracle : Nat → CANResult) (device_id : Nat)
    (contents : Option (List (List Char))) : Bool × List CANMessage :=
  match load_hex_file contents with
  | none => (false, [])
  | some (buf, ptr0) =>
    let s0 : BootState := ⟨buf, (ptr0 : Int), 0, 0, 0, []⟩
    let r1 := send_command oracle s0 (device_id + 0)
    if r1.1 ≠ .errOK then (false, r1.2.sent)
    else
      let r2 := send_command oracle r1.2 (device_id + 2)
      if r2.1 ≠ .errOK then (false, r2.2.sent)
      else
        let s3 := { r2.2 with pic_address := 0, upload_step := 4 }
        upload_loop oracle device_id (s3.data_bytes.length + 1) s3

/-- C2: for every firmware image whose load succeeds with a non-empty word
buffer (cursor reset to 0), send_data with the cursor at 0 returns
ERR_PARMVAL without sending any frame (the Python guard `not self.data_ptr`
treats cursor 0 like an absent buffer); consequently program_device, whenever
its reset command, start-load command and first address frame all send
successfully, returns False having sent only those three frames and never a
data frame (device_id + 4). -/
theorem c2_zero_cursor (contents : Option (List (List Char))) (buf : List Nat)
    (oracle : Nat → CANResult) (device_id : Nat)
    (hload : load_hex_file contents = some (buf, 0))
    (hne : buf ≠ [])
    (h0 : oracle 0 = .errOK) (h1 : oracle 1 = .errOK) (h2 : oracle 2 = .errOK) :
    (∀ (s : BootState) (data_id : Nat), s.data_ptr = 0 →
        send_data oracle s data_id = (.errPARMVAL, s))
    ∧ program_device oracle device_id contents
        = (false,
           [⟨device_id + 0, List.replicate 8 0, .standard, 8⟩,
            ⟨device_id + 2, List.replicate 8 0, .standard, 8⟩,
            ⟨device_id + 3, [0, 0, 0, 0, 0, 0, 0, 0], .standard, 8⟩])
    ∧ ∀ m ∈ (program_device oracle device_id contents).2, m.id ≠ device_id + 4 := by
  have hpos : (0 : Int) < (buf.length : Int) := by
    have := List.length_pos.mpr hne
    exact_mod_cast this
  have hprog : program_device oracle device_id contents
      = (false,
         [⟨device_id + 0, List.replicate 8 0, .standard, 8⟩,
          ⟨device_id + 2, List.replicate 8 0, .standard, 8⟩,
          ⟨device_id + 3, [0, 0, 0, 0, 0, 0, 0, 0], .standard, 8⟩]) := by
    have hland1 : Int.land 0 255 = 0 := by decide
    have hland2 : Int.land ((0 : Int) >>> (8 : Int)) 255 = 0 := by decide
    simp [program_device, hload, send_command, send_address, send_data,
      send_data_n, bus_send, upload_loop, h0, h1, h2, hpos, hland1, hland2]
  refine ⟨fun s data_id h => by simp [send_data, h], hprog, ?_⟩
  rw [hprog]
  intro m hm
  simp only [List.mem_cons, List.not_mem_nil, or_false] at hm
  rcases hm with rfl | rfl | rfl <;> simp

/-- Witness for C2: the one-record image ":020000003412" loads to the single
word 0x3412 with the cursor at 0, and with an always-OK transport
program_device stops after reset, start-load and the first address frame. -/
theorem c2_zero_cursor_witness :
    (load_hex_file (some [":020000003412".toList]) = some ([0x3412], 0)
      ∧ ([0x3412] : List Nat) ≠ []
      ∧ (fun _ : Nat => CANResult.errOK) 0 = CANResult.errOK)
    ∧ program_device (fun _ => .errOK) 0x300 (some [":020000003412".toList])
        = (false,
           [⟨0x300 + 0, List.replicate 8 0, .standard, 8⟩,
            ⟨0x300 + 2, List.replicate 8 0, .standard, 8⟩,
            ⟨0x300 + 3, [0, 0, 0, 0, 0, 0, 0, 0], .standard, 8⟩]) :=
  ⟨⟨by decide, by decide, rfl⟩,
   (c2_zero_cursor (some [":020000003412".toList]) [0x3412] (fun _ => .errOK)
      0x300 (by decide) (by decide) rfl rfl rfl).2.1⟩
